import Mathlib

/-!
Verification of the qdrant collection provisioning tool
(src/core/bin/qdrant/create_collection.rs).

The tool is a one-shot administrative command: it resolves a cluster
client, derives a collection name from a (cluster, provider, model)
triple, asks the operator for confirmation, submits one
collection-creation request, and then creates SHARD_KEY_COUNT shard
keys sequentially.

The embedding below models the run as a pure function from an
environment (the operator answer and the response of each network
call) to a result together with a trace of observable events
(printed lines, the confirmation prompt, and every issued cluster
call). Network calls can fail at the transport level (modelled with
Except String) or logically (a response whose boolean result flag is
false).
-/

deriving instance DecidableEq for Except

namespace Dust

/-- Modelled from the spec: ProviderID is "an enumerated external
embedding service identity"; the Rust enum declaration lives outside
the provided sources (src/providers/provider.rs is not included).
The two variants are the providers with supported embedder models. -/
inductive ProviderID where
  | openai
  | mistral
deriving DecidableEq, Repr

/-- Display string of a provider, as used in derived names. -/
def ProviderID.toString : ProviderID → String
  | .openai => "openai"
  | .mistral => "mistral"

/-- Modelled from the spec: SupportedEmbedderModels is "an enumerated
embedding model, valid only for a subset of provider identities"; the
Rust enum declaration lives outside the provided sources. -/
inductive SupportedEmbedderModels where
  | text_embedding_3_large_1536
  | mistral_embed
deriving DecidableEq, Repr

/-- Display string of a model, as used in derived names. -/
def SupportedEmbedderModels.toString : SupportedEmbedderModels → String
  | .text_embedding_3_large_1536 => "text-embedding-3-large-1536"
  | .mistral_embed => "mistral-embed"

/-- Modelled from the spec: each model "carries a fixed output vector
dimensionality (embedding size)"; the lookup lives outside the
provided sources. The reference scenario fixes 1536 for the supported
openai model. -/
def SupportedEmbedderModels.embedding_size : SupportedEmbedderModels → Nat
  | .text_embedding_3_large_1536 => 1536
  | .mistral_embed => 1024

/-- Modelled from the spec: the provider/model registry exposes a
validity check is_model_supported consulted before invoking the core;
its table lives outside the provided sources. -/
def is_model_supported : ProviderID → SupportedEmbedderModels → Bool
  | .openai, .text_embedding_3_large_1536 => true
  | .mistral, .mistral_embed => true
  | _, _ => false

/-- Modelled from the spec: SHARD_KEY_COUNT is "a fixed constant
shared process-wide (24 in the reference configuration)"; the Rust
constant is declared outside the provided sources, and the source
comment in create_collection.rs says "we create the 24 shard_keys". -/
def SHARD_KEY_COUNT : Nat := 24

/-- Modelled from the spec: the cluster connection registry supplies,
per cluster identity, a collection-name prefix and a shard-key-name
prefix; the Rust QdrantCluster enum and its prefixes are declared
outside the provided sources, so a cluster is modelled abstractly by
its display name and its two naming prefixes. -/
structure QdrantCluster where
  name : String
  collectionPfx : String
  shardKeyPfx : String
deriving DecidableEq, Repr

/-- Distance metric of qdrant::Distance (the variants used here). -/
inductive Distance where
  | Cosine
  | Euclid
  | Dot
deriving DecidableEq, Repr

/-- qdrant::QuantizationType variant used by the source. -/
inductive QuantizationType where
  | Int8
deriving DecidableEq, Repr

/-- qdrant::ShardingMethod. -/
inductive ShardingMethod where
  | Auto
  | Custom
deriving DecidableEq, Repr

/-- Fields of qdrant::VectorParams set by the source (the remaining
fields are left at their defaults by `..Default::default()`). -/
structure VectorParams where
  size : Nat
  distance : Distance
  on_disk : Option Bool
deriving DecidableEq, Repr

/-- Fields of qdrant::HnswConfigDiff set by the source. -/
structure HnswConfigDiff where
  payload_m : Option Nat
  m : Option Nat
deriving DecidableEq, Repr

/-- Fields of qdrant::OptimizersConfigDiff set by the source. -/
structure OptimizersConfigDiff where
  memmap_threshold : Option Nat
deriving DecidableEq, Repr

/-- qdrant::ScalarQuantization; the source sets type, quantile and
always_ram. The quantile literal 0.99 is embedded as the rational
99/100. -/
structure ScalarQuantization where
  qtype : QuantizationType
  quantile : Option ℚ
  always_ram : Option Bool
deriving DecidableEq, Repr

/-- qdrant::quantization_config::Quantization. -/
inductive Quantization where
  | Scalar (s : ScalarQuantization)
deriving DecidableEq, Repr

/-- Fields of qdrant::CreateCollection set by the source. -/
structure CreateCollection where
  collection_name : String
  vectors_config : Option VectorParams
  hnsw_config : Option HnswConfigDiff
  optimizers_config : Option OptimizersConfigDiff
  quantization_config : Option Quantization
  on_disk_payload : Option Bool
  sharding_method : Option ShardingMethod
  shard_number : Option Nat
  replication_factor : Option Nat
  write_consistency_factor : Option Nat
deriving DecidableEq, Repr

/-- qdrant::shard_key::Key. -/
inductive ShardKeyKey where
  | Keyword (s : String)
  | Number (n : Nat)
deriving DecidableEq, Repr

/-- One cluster call issued by the tool. The source issues only these
two kinds of calls (and in particular no deletion or rollback calls).
create_shard_key carries the collection name, the key, the optional
shard-number and replication-factor overrides, and the placement
list (passed as an empty slice by the source). -/
inductive Call where
  | createCollection (req : CreateCollection)
  | createShardKey (coll : String) (key : ShardKeyKey)
      (shard_number : Option Nat) (replication_factor : Option Nat)
      (placement : List Nat)
deriving DecidableEq, Repr

/-- One observable event of a run. -/
inductive Event where
  | println (msg : String)
  | prompt (msg : String)
  | eprintln (msg : String)
  | call (c : Call)
deriving DecidableEq, Repr

/-- Environment of a run: the identity inputs plus the behaviour of
the collaborators (client construction, the operator answer, and the
response of each cluster call, indexed by shard-key index for the
shard-key calls). -/
structure Env where
  cluster : QdrantCluster
  providerId : ProviderID
  modelId : SupportedEmbedderModels
  clientBuild : Except String Unit
  confirmAnswer : Except String Bool
  createCollectionResp : Except String Bool
  createShardKeyResp : Nat → Except String Bool

/-- Derived collection name: collection-prefix, provider and model
joined by underscores, as in the format! call of the source. -/
def collection_name (env : Env) : String :=
  env.cluster.collectionPfx ++ "_" ++ env.providerId.toString ++ "_"
    ++ env.modelId.toString

/-- Derived shard-key name for one index, as in the format! call of
the source loop. -/
def shard_key_name (pfx : String) (i : Nat) : String :=
  pfx ++ "_" ++ ToString.toString i

/-- The creation request built by the source, field for field. -/
def buildCreateCollection (env : Env) (name : String) : CreateCollection :=
  { collection_name := name
    vectors_config := some
      { size := env.modelId.embedding_size
        distance := Distance.Cosine
        on_disk := some true }
    hnsw_config := some
      { payload_m := some 16
        m := some 0 }
    optimizers_config := some
      { memmap_threshold := some 16384 }
    quantization_config := some (Quantization.Scalar
      { qtype := QuantizationType.Int8
        quantile := some (99 / 100 : ℚ)
        always_ram := some true })
    on_disk_payload := some true
    sharding_method := some ShardingMethod.Custom
    shard_number := some 2
    replication_factor := some 2
    write_consistency_factor := some 1 }

/-- The shard-key loop of the source: for each remaining index
(fuel counts the remaining iterations, i is the current index) derive
the key name, issue the create-shard-key call, and continue only on a
response that is ok with a true result; a transport error propagates
and a false result raises the error used by the source. -/
def runShardKeys (env : Env) (name : String) : Nat → Nat → Except String Unit × List Event
  | _, 0 => (Except.ok (), [])
  | i, fuel + 1 =>
    let shard_key := shard_key_name env.cluster.shardKeyPfx i
    let callEv := Event.call (Call.createShardKey name
      (ShardKeyKey.Keyword shard_key) none none [])
    match env.createShardKeyResp i with
    | Except.error e => (Except.error e, [callEv])
    | Except.ok false => (Except.error "Collection not created!", [callEv])
    | Except.ok true =>
      let doneEv := Event.println ("Done creating shard key [" ++ shard_key
        ++ "] for collection " ++ name ++ " on cluster " ++ env.cluster.name)
      let rest := runShardKeys env name (i + 1) fuel
      (rest.1, callEv :: doneEv :: rest.2)

/-- The create_qdrant_collection function of the source: build the
clients, derive the collection name, print it, prompt for
confirmation, submit the creation request, check its result flag, and
run the shard-key loop from index 0. -/
def create_qdrant_collection (env : Env) : Except String Unit × List Event :=
  match env.clientBuild with
  | Except.error e => (Except.error e, [])
  | Except.ok _ =>
    let name := collection_name env
    let aboutEv := Event.println ("About to create collection " ++ name
      ++ " on cluster " ++ env.cluster.name)
    let promptText := "Are you sure you want to create collection " ++ name
      ++ " on cluster " ++ env.cluster.name ++ "?"
    let promptEv := Event.prompt promptText
    match env.confirmAnswer with
    | Except.error e => (Except.error e, [aboutEv, promptEv])
    | Except.ok false => (Except.error "Aborted", [aboutEv, promptEv])
    | Except.ok true =>
      let req := buildCreateCollection env name
      let callEv := Event.call (Call.createCollection req)
      match env.createCollectionResp with
      | Except.error e => (Except.error e, [aboutEv, promptEv, callEv])
      | Except.ok false =>
        (Except.error "Collection not created!", [aboutEv, promptEv, callEv])
      | Except.ok true =>
        let doneEv := Event.println ("Done creating collection " ++ name
          ++ " on cluster " ++ env.cluster.name)
        let rest := runShardKeys env name 0 SHARD_KEY_COUNT
        (rest.1, [aboutEv, promptEv, callEv, doneEv] ++ rest.2)

/-- Outcome of the main entry point: an explicit process exit with a
code, a normal success, or an error propagated out of the run. -/
inductive MainOutcome where
  | exited (code : Nat)
  | ok
  | error (msg : String)
deriving DecidableEq, Repr

/-- The main function of the source: validate the provider/model pair
against the registry, exit with code 1 on an unsupported pair before
any cluster interaction, otherwise run create_qdrant_collection. -/
def mainRun (env : Env) : MainOutcome × List Event :=
  if is_model_supported env.providerId env.modelId = false then
    (MainOutcome.exited 1,
      [Event.eprintln ("Error: Model " ++ env.modelId.toString
        ++ " is not available for provider " ++ env.providerId.toString ++ ".")])
  else
    match create_qdrant_collection env with
    | (Except.ok _, tr) => (MainOutcome.ok, tr)
    | (Except.error e, tr) => (MainOutcome.error e, tr)

/-- The cluster calls of a trace, in order. -/
def callsOf (tr : List Event) : List Call :=
  tr.filterMap fun e =>
    match e with
    | Event.call c => some c
    | _ => none

/-- The collection-creation calls of a trace, in order. -/
def createCollectionCallsOf (tr : List Event) : List CreateCollection :=
  tr.filterMap fun e =>
    match e with
    | Event.call (Call.createCollection req) => some req
    | _ => none

/-- The create-shard-key calls of a trace, in order. -/
def shardKeyCallsOf (tr : List Event) : List Call :=
  tr.filterMap fun e =>
    match e with
    | Event.call (Call.createShardKey c k s r p) =>
        some (Call.createShardKey c k s r p)
    | _ => none

/-- Substring test on character lists, used to express that an error
message carries a piece of context. -/
def listContainsSub : List Char → List Char → Bool
  | [], sub => sub.isEmpty
  | c :: t, sub => sub.isPrefixOf (c :: t) || listContainsSub t sub

/-- Substring test on strings. -/
def strContainsSub (s sub : String) : Bool :=
  listContainsSub s.data sub.data

end Dust

namespace Dust

/-- The shard-key call issued for one index. -/
def mkShardCall (env : Env) (name : String) (i : Nat) : Call :=
  Call.createShardKey name
    (ShardKeyKey.Keyword (shard_key_name env.cluster.shardKeyPfx i)) none none []

/-- A concrete cluster used to instantiate the theorems. -/
def clusterA : QdrantCluster :=
  { name := "CLUSTER-A", collectionPfx := "c1", shardKeyPfx := "sk1" }

/-- A second concrete cluster. -/
def clusterB : QdrantCluster :=
  { name := "CLUSTER-B", collectionPfx := "c2", shardKeyPfx := "sk2" }

/-- A run in which every collaborator succeeds. -/
def envAllOk : Env :=
  { cluster := clusterA
    providerId := ProviderID.openai
    modelId := SupportedEmbedderModels.text_embedding_3_large_1536
    clientBuild := Except.ok ()
    confirmAnswer := Except.ok true
    createCollectionResp := Except.ok true
    createShardKeyResp := fun _ => Except.ok true }

/-- A run whose creation response carries a false result flag. -/
def envCollFalse : Env :=
  { envAllOk with createCollectionResp := Except.ok false }

/-- A run in which the operator declines the confirmation. -/
def envDecline : Env :=
  { envAllOk with confirmAnswer := Except.ok false }

/-- A run in which client construction fails. -/
def envNoBuild : Env :=
  { envAllOk with clientBuild := Except.error "connection refused" }

/-- A run with an unsupported provider/model pair. -/
def envUnsupported : Env :=
  { envAllOk with modelId := SupportedEmbedderModels.mistral_embed }

/-- A supported mistral run on the same cluster as envAllOk. -/
def envMistralOk : Env :=
  { envAllOk with
      providerId := ProviderID.mistral
      modelId := SupportedEmbedderModels.mistral_embed }

/-- A run whose shard-key call at index 2 reports a false result. -/
def envShardFail2 : Env :=
  { envAllOk with
      createShardKeyResp := fun i =>
        if i < 2 then Except.ok true else Except.ok false }

/-- A mistral run on the second cluster whose shard-key call at
index 7 reports a false result. -/
def envShardFail7 : Env :=
  { cluster := clusterB
    providerId := ProviderID.mistral
    modelId := SupportedEmbedderModels.mistral_embed
    clientBuild := Except.ok ()
    confirmAnswer := Except.ok true
    createCollectionResp := Except.ok true
    createShardKeyResp := fun i =>
      if i < 7 then Except.ok true else Except.ok false }

theorem callsOf_nil : callsOf [] = [] := rfl

theorem callsOf_cons_call (c : Call) (tr : List Event) :
    callsOf (Event.call c :: tr) = c :: callsOf tr := rfl

theorem callsOf_cons_println (m : String) (tr : List Event) :
    callsOf (Event.println m :: tr) = callsOf tr := rfl

theorem shardKeyCallsOf_cons_println (m : String) (tr : List Event) :
    shardKeyCallsOf (Event.println m :: tr) = shardKeyCallsOf tr := rfl

theorem shardKeyCallsOf_cons_shard (c : String) (k : ShardKeyKey)
    (s r : Option Nat) (p : List Nat) (tr : List Event) :
    shardKeyCallsOf (Event.call (Call.createShardKey c k s r p) :: tr)
      = Call.createShardKey c k s r p :: shardKeyCallsOf tr := rfl

theorem createCollectionCallsOf_cons_shard (c : String) (k : ShardKeyKey)
    (s r : Option Nat) (p : List Nat) (tr : List Event) :
    createCollectionCallsOf (Event.call (Call.createShardKey c k s r p) :: tr)
      = createCollectionCallsOf tr := rfl

theorem createCollectionCallsOf_cons_println (m : String) (tr : List Event) :
    createCollectionCallsOf (Event.println m :: tr)
      = createCollectionCallsOf tr := rfl

theorem createCollectionCallsOf_cons_prompt (m : String) (tr : List Event) :
    createCollectionCallsOf (Event.prompt m :: tr)
      = createCollectionCallsOf tr := rfl

theorem createCollectionCallsOf_cons_create (req : CreateCollection)
    (tr : List Event) :
    createCollectionCallsOf (Event.call (Call.createCollection req) :: tr)
      = req :: createCollectionCallsOf tr := rfl

theorem shardKeyCallsOf_cons_prompt (m : String) (tr : List Event) :
    shardKeyCallsOf (Event.prompt m :: tr) = shardKeyCallsOf tr := rfl

theorem shardKeyCallsOf_cons_create (req : CreateCollection)
    (tr : List Event) :
    shardKeyCallsOf (Event.call (Call.createCollection req) :: tr)
      = shardKeyCallsOf tr := rfl

/-- The loop never emits a collection-creation call. -/
theorem runShardKeys_no_create_collection (env : Env) (name : String)
    (fuel i : Nat) :
    createCollectionCallsOf (runShardKeys env name i fuel).2 = [] := by
  induction fuel generalizing i with
  | zero => simp [runShardKeys, createCollectionCallsOf]
  | succ n ih =>
    rcases hr : env.createShardKeyResp i with e | b
    · simp [runShardKeys, hr, createCollectionCallsOf]
    · cases b
      · simp [runShardKeys, hr, createCollectionCallsOf]
      · simp only [runShardKeys, hr, createCollectionCallsOf_cons_shard,
          createCollectionCallsOf_cons_println]
        exact ih (i + 1)

/-- When every remaining response is ok-true, the loop succeeds and
issues exactly one keyword-typed call per remaining index, in
increasing order, with no overrides. -/
theorem runShardKeys_all_ok (env : Env) (name : String) (fuel i : Nat)
    (h : ∀ j, j < fuel → env.createShardKeyResp (i + j) = Except.ok true) :
    (runShardKeys env name i fuel).1 = Except.ok () ∧
    callsOf (runShardKeys env name i fuel).2
      = (List.range' i fuel).map (mkShardCall env name) ∧
    shardKeyCallsOf (runShardKeys env name i fuel).2
      = (List.range' i fuel).map (mkShardCall env name) := by
  induction fuel generalizing i with
  | zero => simp [runShardKeys, callsOf, shardKeyCallsOf]
  | succ n ih =>
    have h0 : env.createShardKeyResp i = Except.ok true := by
      simpa using h 0 n.succ_pos
    have hs : ∀ j, j < n → env.createShardKeyResp (i + 1 + j) = Except.ok true := by
      intro j hj
      have hx := h (j + 1) (Nat.succ_lt_succ hj)
      have hidx : i + (j + 1) = i + 1 + j := by omega
      rw [hidx] at hx
      exact hx
    obtain ⟨hres, hcalls, hsk⟩ := ih (i + 1) hs
    refine ⟨?_, ?_, ?_⟩
    · simp only [runShardKeys, h0]
      exact hres
    · simp only [runShardKeys, h0, callsOf_cons_call, callsOf_cons_println,
        List.range'_succ, List.map_cons]
      rw [hcalls]
      rfl
    · simp only [runShardKeys, h0, List.range'_succ, List.map_cons]
      rw [← hsk]
      rfl

/-- When responses up to offset a are ok-true and the response at
offset a is not, the loop issues exactly the calls for offsets 0..a
(one each, in increasing order) and fails: with the transport error
text on a transport error, and with the fixed message on a false
result flag. -/
theorem runShardKeys_fail (env : Env) (name : String) (fuel i a : Nat)
    (ha : a < fuel)
    (hok : ∀ j, j < a → env.createShardKeyResp (i + j) = Except.ok true)
    (hfail : env.createShardKeyResp (i + a) ≠ Except.ok true) :
    callsOf (runShardKeys env name i fuel).2
      = (List.range' i (a + 1)).map (mkShardCall env name) ∧
    shardKeyCallsOf (runShardKeys env name i fuel).2
      = (List.range' i (a + 1)).map (mkShardCall env name) ∧
    (runShardKeys env name i fuel).1
      = (match env.createShardKeyResp (i + a) with
         | Except.error e => Except.error e
         | _ => Except.error "Collection not created!") := by
  induction fuel generalizing i a with
  | zero => omega
  | succ n ih =>
    cases a with
    | zero =>
      rcases hr : env.createShardKeyResp i with e | b
      · rw [Nat.add_zero] at hfail ⊢
        simp [runShardKeys, hr, callsOf, shardKeyCallsOf, List.range'_succ,
          mkShardCall]
      · cases b
        · rw [Nat.add_zero] at hfail ⊢
          simp [runShardKeys, hr, callsOf, shardKeyCallsOf, List.range'_succ,
            mkShardCall]
        · rw [Nat.add_zero] at hfail
          exact absurd hr hfail
    | succ a' =>
      have h0 : env.createShardKeyResp i = Except.ok true :=
        hok 0 a'.succ_pos
      have hok2 : ∀ j, j < a' → env.createShardKeyResp (i + 1 + j) = Except.ok true := by
        intro j hj
        have hx := hok (j + 1) (Nat.succ_lt_succ hj)
        have hidx : i + (j + 1) = i + 1 + j := by omega
        rw [hidx] at hx
        exact hx
      have hfail2 : env.createShardKeyResp (i + 1 + a') ≠ Except.ok true := by
        have hidx : i + 1 + a' = i + (a' + 1) := by omega
        rw [hidx]
        exact hfail
      obtain ⟨hcalls, hsk, hres⟩ := ih (i + 1) a' (by omega) hok2 hfail2
      have hidx2 : i + (a' + 1) = i + 1 + a' := by omega
      refine ⟨?_, ?_, ?_⟩
      · simp only [runShardKeys, h0, callsOf_cons_call, callsOf_cons_println,
          List.range'_succ, List.map_cons]
        rw [hcalls]
        rfl
      · simp only [runShardKeys, h0, shardKeyCallsOf_cons_shard,
          shardKeyCallsOf_cons_println, List.range'_succ, List.map_cons]
        rw [hsk]
        rfl
      · rw [hidx2]
        simp only [runShardKeys, h0]
        exact hres

end Dust

namespace Dust

theorem callsOf_append (t1 t2 : List Event) :
    callsOf (t1 ++ t2) = callsOf t1 ++ callsOf t2 := by
  simp [callsOf, List.filterMap_append]

theorem shardKeyCallsOf_append (t1 t2 : List Event) :
    shardKeyCallsOf (t1 ++ t2) = shardKeyCallsOf t1 ++ shardKeyCallsOf t2 := by
  simp [shardKeyCallsOf, List.filterMap_append]

theorem createCollectionCallsOf_append (t1 t2 : List Event) :
    createCollectionCallsOf (t1 ++ t2)
      = createCollectionCallsOf t1 ++ createCollectionCallsOf t2 := by
  simp [createCollectionCallsOf, List.filterMap_append]

/-- On a supported pair, main only wraps the run result: the trace is
that of create_qdrant_collection. -/
theorem mainRun_trace (env : Env)
    (hsup : is_model_supported env.providerId env.modelId = true) :
    (mainRun env).2 = (create_qdrant_collection env).2 := by
  rcases h : create_qdrant_collection env with ⟨r, tr⟩
  cases r <;> simp [mainRun, hsup, h]


/-- C1: in every run where the provider/model pair is supported, the
clients are built and the operator confirms, exactly one
collection-creation request is submitted, and it carries the vector
size of the model embedding dimensionality, Cosine distance, on-disk
vectors, HNSW m = 0 and payload_m = 16, the optimizer memmap
threshold, scalar int8 quantization at quantile 99/100 with
always_ram, on-disk payload storage, custom sharding, shard_number 2,
replication_factor 2 and write_consistency_factor 1. -/
theorem C1_creation_request (env : Env)
    (hsup : is_model_supported env.providerId env.modelId = true)
    (hb : env.clientBuild = Except.ok ())
    (hc : env.confirmAnswer = Except.ok true) :
    createCollectionCallsOf (mainRun env).2
      = [{ collection_name := collection_name env
           vectors_config := some
             { size := env.modelId.embedding_size
               distance := Distance.Cosine
               on_disk := some true }
           hnsw_config := some { payload_m := some 16, m := some 0 }
           optimizers_config := some { memmap_threshold := some 16384 }
           quantization_config := some (Quantization.Scalar
             { qtype := QuantizationType.Int8
               quantile := some (99 / 100 : ℚ)
               always_ram := some true })
           on_disk_payload := some true
           sharding_method := some ShardingMethod.Custom
           shard_number := some 2
           replication_factor := some 2
           write_consistency_factor := some 1 }] := by
  rw [mainRun_trace env hsup]
  rcases hcc : env.createCollectionResp with e | b
  · simp [create_qdrant_collection, hb, hc, hcc, createCollectionCallsOf,
      buildCreateCollection]
  · cases b
    · simp [create_qdrant_collection, hb, hc, hcc, createCollectionCallsOf,
        buildCreateCollection]
    · simp only [create_qdrant_collection, hb, hc, hcc, List.cons_append,
        List.nil_append, createCollectionCallsOf_cons_println,
        createCollectionCallsOf_cons_prompt,
        createCollectionCallsOf_cons_create,
        runShardKeys_no_create_collection, buildCreateCollection]

/-- C1 witness at a fully successful openai run. -/
theorem C1_creation_request_witness :
    createCollectionCallsOf (mainRun envAllOk).2
      = [{ collection_name := collection_name envAllOk
           vectors_config := some
             { size := envAllOk.modelId.embedding_size
               distance := Distance.Cosine
               on_disk := some true }
           hnsw_config := some { payload_m := some 16, m := some 0 }
           optimizers_config := some { memmap_threshold := some 16384 }
           quantization_config := some (Quantization.Scalar
             { qtype := QuantizationType.Int8
               quantile := some (99 / 100 : ℚ)
               always_ram := some true })
           on_disk_payload := some true
           sharding_method := some ShardingMethod.Custom
           shard_number := some 2
           replication_factor := some 2
           write_consistency_factor := some 1 }] :=
  C1_creation_request envAllOk rfl rfl rfl

/-- C2: when the creation response reports true and every shard-key
response reports true, exactly SHARD_KEY_COUNT create-shard-key
requests are issued against the new collection, keyword-typed, with
keys prefix_0 .. prefix_(SHARD_KEY_COUNT-1) in increasing index
order and no per-key shard-number or replication-factor override. -/
theorem C2_shard_keys (env : Env)
    (hb : env.clientBuild = Except.ok ())
    (hc : env.confirmAnswer = Except.ok true)
    (hcc : env.createCollectionResp = Except.ok true)
    (hsk : ∀ i, i < SHARD_KEY_COUNT →
      env.createShardKeyResp i = Except.ok true) :
    shardKeyCallsOf (create_qdrant_collection env).2
      = (List.range SHARD_KEY_COUNT).map (fun i =>
          Call.createShardKey (collection_name env)
            (ShardKeyKey.Keyword (shard_key_name env.cluster.shardKeyPfx i))
            none none []) := by
  obtain ⟨hres, hcalls, hskc⟩ :=
    runShardKeys_all_ok env (collection_name env) SHARD_KEY_COUNT 0
      (fun j hj => by simpa using hsk j hj)
  simp only [create_qdrant_collection, hb, hc, hcc, List.cons_append,
    List.nil_append, shardKeyCallsOf_cons_println,
    shardKeyCallsOf_cons_prompt, shardKeyCallsOf_cons_create]
  rw [hskc, List.range_eq_range']
  rfl

/-- C2 witness at a fully successful openai run. -/
theorem C2_shard_keys_witness :
    shardKeyCallsOf (create_qdrant_collection envAllOk).2
      = (List.range SHARD_KEY_COUNT).map (fun i =>
          Call.createShardKey (collection_name envAllOk)
            (ShardKeyKey.Keyword
              (shard_key_name envAllOk.cluster.shardKeyPfx i))
            none none []) :=
  C2_shard_keys envAllOk rfl rfl rfl (fun _ _ => rfl)

/-- C3: when the creation call completes but its result flag is
false, the run fails with the error message of the source and no
create-shard-key call is issued. -/
theorem C3_collection_not_created (env : Env)
    (hb : env.clientBuild = Except.ok ())
    (hc : env.confirmAnswer = Except.ok true)
    (hcc : env.createCollectionResp = Except.ok false) :
    (create_qdrant_collection env).1
      = Except.error "Collection not created!" ∧
    shardKeyCallsOf (create_qdrant_collection env).2 = [] := by
  simp [create_qdrant_collection, hb, hc, hcc, shardKeyCallsOf]

/-- C3 witness at a run whose creation response is a false result. -/
theorem C3_collection_not_created_witness :
    (create_qdrant_collection envCollFalse).1
      = Except.error "Collection not created!" ∧
    shardKeyCallsOf (create_qdrant_collection envCollFalse).2 = [] :=
  C3_collection_not_created envCollFalse rfl rfl rfl

end Dust

namespace Dust

theorem callsOf_cons_prompt (m : String) (tr : List Event) :
    callsOf (Event.prompt m :: tr) = callsOf tr := rfl

/-- C4: when the shard-key call at index k fails (transport error or
false result flag) and every earlier one succeeded, the full call
trace is exactly the one collection-creation call followed by one
shard-key call for each index 0..k (in increasing order, the failing
call included): no call for an index greater than k is issued, every
index below k was issued exactly once, and no rollback call of any
kind is issued for the collection or the earlier keys. -/
theorem C4_shard_failure_prefix (env : Env) (k : Nat)
    (hb : env.clientBuild = Except.ok ())
    (hc : env.confirmAnswer = Except.ok true)
    (hcc : env.createCollectionResp = Except.ok true)
    (hk : k < SHARD_KEY_COUNT)
    (hok : ∀ j, j < k → env.createShardKeyResp j = Except.ok true)
    (hfail : env.createShardKeyResp k ≠ Except.ok true) :
    callsOf (create_qdrant_collection env).2
      = Call.createCollection
          (buildCreateCollection env (collection_name env))
        :: (List.range (k + 1)).map (fun i =>
            Call.createShardKey (collection_name env)
              (ShardKeyKey.Keyword (shard_key_name env.cluster.shardKeyPfx i))
              none none []) := by
  obtain ⟨hcalls, hsk2, hres⟩ :=
    runShardKeys_fail env (collection_name env) SHARD_KEY_COUNT 0 k hk
      (fun j hj => by simpa using hok j hj) (by simpa using hfail)
  simp only [create_qdrant_collection, hb, hc, hcc, List.cons_append,
    List.nil_append, callsOf_cons_println, callsOf_cons_prompt,
    callsOf_cons_call]
  rw [hcalls, List.range_eq_range']
  rfl

/-- C4 witness at a run failing logically at shard-key index 2. -/
theorem C4_shard_failure_prefix_witness :
    callsOf (create_qdrant_collection envShardFail2).2
      = Call.createCollection
          (buildCreateCollection envShardFail2 (collection_name envShardFail2))
        :: (List.range 3).map (fun i =>
            Call.createShardKey (collection_name envShardFail2)
              (ShardKeyKey.Keyword
                (shard_key_name envShardFail2.cluster.shardKeyPfx i))
              none none []) :=
  C4_shard_failure_prefix envShardFail2 2 rfl rfl rfl (by decide)
    (by decide) (by decide)

/-- C5: a declined confirmation aborts the run with the Aborted error
and a trace holding no cluster call at all: only the information line
and the prompt, whose text displays the fully resolved collection
name and the cluster. -/
theorem C5_declined (env : Env)
    (hb : env.clientBuild = Except.ok ())
    (hc : env.confirmAnswer = Except.ok false) :
    (create_qdrant_collection env).1 = Except.error "Aborted" ∧
    callsOf (create_qdrant_collection env).2 = [] ∧
    (create_qdrant_collection env).2
      = [Event.println ("About to create collection " ++ collection_name env
           ++ " on cluster " ++ env.cluster.name),
         Event.prompt ("Are you sure you want to create collection "
           ++ collection_name env ++ " on cluster "
           ++ env.cluster.name ++ "?")] := by
  simp [create_qdrant_collection, hb, hc, callsOf]

/-- C5 witness at a declined run. -/
theorem C5_declined_witness :
    (create_qdrant_collection envDecline).1 = Except.error "Aborted" ∧
    callsOf (create_qdrant_collection envDecline).2 = [] ∧
    (create_qdrant_collection envDecline).2
      = [Event.println ("About to create collection "
           ++ collection_name envDecline ++ " on cluster "
           ++ envDecline.cluster.name),
         Event.prompt ("Are you sure you want to create collection "
           ++ collection_name envDecline ++ " on cluster "
           ++ envDecline.cluster.name ++ "?")] :=
  C5_declined envDecline rfl rfl

/-- C6: on an unsupported provider/model pair, main reports the error
on stderr and exits with code 1, and the trace holds no cluster call
(indeed nothing but the error line). -/
theorem C6_unsupported (env : Env)
    (hsup : is_model_supported env.providerId env.modelId = false) :
    (mainRun env).1 = MainOutcome.exited 1 ∧
    callsOf (mainRun env).2 = [] ∧
    (mainRun env).2
      = [Event.eprintln ("Error: Model " ++ env.modelId.toString
           ++ " is not available for provider "
           ++ env.providerId.toString ++ ".")] := by
  simp [mainRun, hsup, callsOf]

/-- C6 witness at a run asking for mistral-embed under openai. -/
theorem C6_unsupported_witness :
    (mainRun envUnsupported).1 = MainOutcome.exited 1 ∧
    callsOf (mainRun envUnsupported).2 = [] ∧
    (mainRun envUnsupported).2
      = [Event.eprintln ("Error: Model "
           ++ envUnsupported.modelId.toString
           ++ " is not available for provider "
           ++ envUnsupported.providerId.toString ++ ".")] :=
  C6_unsupported envUnsupported rfl

end Dust

namespace Dust

/-- Distinct provider/model pairs give distinct name suffixes, for
any shared cluster prefix. -/
theorem name_parts_injective (pfx : String) (p1 p2 : ProviderID)
    (m1 m2 : SupportedEmbedderModels)
    (h : pfx ++ "_" ++ p1.toString ++ "_" ++ m1.toString
       = pfx ++ "_" ++ p2.toString ++ "_" ++ m2.toString) :
    p1 = p2 ∧ m1 = m2 := by
  have hd := congrArg String.data h
  simp only [String.data_append, List.append_assoc] at hd
  have hd2 := List.append_cancel_left hd
  cases p1 <;> cases p2 <;> cases m1 <;> cases m2 <;>
    first
      | exact ⟨rfl, rfl⟩
      | exact absurd hd2 (by decide)

/-- C7: the derived collection name is the underscore join of the
cluster collection-prefix, the provider and the model; it is
deterministic (equal inputs give equal names) and injective on the
provider/model pair for a fixed cluster prefix (distinct pairs on the
same cluster never collide). -/
theorem C7_collection_name_injective (e1 e2 : Env) :
    collection_name e1
      = e1.cluster.collectionPfx ++ "_" ++ e1.providerId.toString ++ "_"
          ++ e1.modelId.toString ∧
    (e1.cluster.collectionPfx = e2.cluster.collectionPfx →
      e1.providerId = e2.providerId → e1.modelId = e2.modelId →
      collection_name e1 = collection_name e2) ∧
    (e1.cluster.collectionPfx = e2.cluster.collectionPfx →
      (e1.providerId ≠ e2.providerId ∨ e1.modelId ≠ e2.modelId) →
      collection_name e1 ≠ collection_name e2) := by
  refine ⟨rfl, ?_, ?_⟩
  · intro hp hq hm
    simp [collection_name, hp, hq, hm]
  · intro hp hne heq
    unfold collection_name at heq
    rw [hp] at heq
    obtain ⟨hpq, hmq⟩ := name_parts_injective _ _ _ _ _ heq
    rcases hne with h | h
    · exact h hpq
    · exact h hmq

/-- C7 witness: on the same cluster, the openai and mistral runs get
distinct collection names. -/
theorem C7_collection_name_injective_witness :
    collection_name envAllOk ≠ collection_name envMistralOk :=
  (C7_collection_name_injective envAllOk envMistralOk).2.2 rfl
    (Or.inl (by decide))

/-- C8: for any cluster shard-key prefix, the derived shard-key name
is the underscore join of the prefix and the decimal index, and the
SHARD_KEY_COUNT names are pairwise distinct. -/
theorem C8_shard_key_names (pfx : String) (i j : Nat)
    (hi : i < SHARD_KEY_COUNT) (hj : j < SHARD_KEY_COUNT) :
    shard_key_name pfx i = pfx ++ "_" ++ ToString.toString i ∧
    (i ≠ j → shard_key_name pfx i ≠ shard_key_name pfx j) := by
  refine ⟨rfl, ?_⟩
  intro hne heq
  have hd := congrArg String.data heq
  simp only [shard_key_name, String.data_append, List.append_assoc] at hd
  have hd2 := List.append_cancel_left hd
  have hd3 := List.append_cancel_left hd2
  have hts : ToString.toString i = ToString.toString j := String.ext hd3
  have hinj : ∀ a, a < SHARD_KEY_COUNT → ∀ b, b < SHARD_KEY_COUNT →
      a ≠ b → ToString.toString a ≠ ToString.toString b := by decide
  exact hinj i hi j hj hne hts

/-- C8 witness: the first two shard-key names of the sk1 prefix are
distinct. -/
theorem C8_shard_key_names_witness :
    shard_key_name "sk1" 0 ≠ shard_key_name "sk1" 1 :=
  (C8_shard_key_names "sk1" 0 1 (by decide) (by decide)).2 (by decide)

/-- C9 counterexample: two runs that fail logically in the shard-key
loop at different indices (2 and 7), on different clusters, with
different collection names, surface the identical error message
"Collection not created!"; that message contains neither the failing
shard-key index, nor the collection name, nor the cluster name, so
the surfaced error does not carry the context the claim requires and
does not depend on the shard-key index. -/
theorem C9_error_context_counterexample :
    (create_qdrant_collection envShardFail2).1
      = Except.error "Collection not created!" ∧
    (create_qdrant_collection envShardFail7).1
      = Except.error "Collection not created!" ∧
    strContainsSub "Collection not created!" (ToString.toString 2) = false ∧
    strContainsSub "Collection not created!"
      (collection_name envShardFail2) = false ∧
    strContainsSub "Collection not created!"
      envShardFail2.cluster.name = false := by
  refine ⟨?_, ?_, ?_, ?_, ?_⟩ <;> decide

/-- C9 as amended: a logical failure (a response whose result flag is
false) is surfaced with the fixed message "Collection not created!",
for the collection-creation call and for every shard-key index alike;
a transport error is surfaced with the transport error text instead.
The message therefore distinguishes a logical failure from a
transport error only through its fixed text and carries neither the
collection name, nor the cluster, nor the failing shard-key index. -/
theorem C9_fixed_error_message (env : Env) (k : Nat) (e : String)
    (hb : env.clientBuild = Except.ok ())
    (hc : env.confirmAnswer = Except.ok true)
    (hcc : env.createCollectionResp = Except.ok true)
    (hk : k < SHARD_KEY_COUNT)
    (hok : ∀ j, j < k → env.createShardKeyResp j = Except.ok true) :
    (env.createShardKeyResp k = Except.ok false →
      (create_qdrant_collection env).1
        = Except.error "Collection not created!") ∧
    (env.createShardKeyResp k = Except.error e →
      (create_qdrant_collection env).1 = Except.error e) := by
  constructor
  · intro hfail
    obtain ⟨hcalls, hsk2, hres⟩ :=
      runShardKeys_fail env (collection_name env) SHARD_KEY_COUNT 0 k hk
        (fun j hj => by simpa using hok j hj)
        (by simp [hfail])
    simp only [create_qdrant_collection, hb, hc, hcc]
    rw [hres]
    simp [hfail]
  · intro hfail
    obtain ⟨hcalls, hsk2, hres⟩ :=
      runShardKeys_fail env (collection_name env) SHARD_KEY_COUNT 0 k hk
        (fun j hj => by simpa using hok j hj)
        (by simp [hfail])
    simp only [create_qdrant_collection, hb, hc, hcc]
    rw [hres]
    simp [hfail]

/-- C9 witness at the run failing logically at shard-key index 2. -/
theorem C9_fixed_error_message_witness :
    (create_qdrant_collection envShardFail2).1
      = Except.error "Collection not created!" :=
  (C9_fixed_error_message envShardFail2 2 "boom" rfl rfl rfl (by decide)
      (by decide)).1 (by decide)

/-- C10: the cluster clients are built before the confirmation
prompt. If client construction fails, the run fails with that error
and the trace is empty: the operator is never prompted and no call is
made. Conversely a prompt in the trace proves client construction
succeeded; and when construction succeeds and the operator declines,
the prompt was shown but no mutating call was issued. -/
theorem C10_clients_before_prompt (env : Env) (e p : String) :
    (env.clientBuild = Except.error e →
      (create_qdrant_collection env).1 = Except.error e ∧
      (create_qdrant_collection env).2 = []) ∧
    (Event.prompt p ∈ (create_qdrant_collection env).2 →
      env.clientBuild = Except.ok ()) ∧
    (env.clientBuild = Except.ok () →
      env.confirmAnswer = Except.ok false →
      callsOf (create_qdrant_collection env).2 = [] ∧
      Event.prompt ("Are you sure you want to create collection "
          ++ collection_name env ++ " on cluster "
          ++ env.cluster.name ++ "?")
        ∈ (create_qdrant_collection env).2) := by
  refine ⟨?_, ?_, ?_⟩
  · intro hberr
    simp [create_qdrant_collection, hberr]
  · intro hmem
    rcases hbuild : env.clientBuild with e2 | u
    · exfalso
      simp [create_qdrant_collection, hbuild] at hmem
    · cases u
      rfl
  · intro hbok hcdec
    simp [create_qdrant_collection, hbok, hcdec, callsOf]

/-- C10 witness: a failed client build yields its error with an empty
trace, and a declined run on a built client issued no call though the
prompt was shown. -/
theorem C10_clients_before_prompt_witness :
    ((create_qdrant_collection envNoBuild).1
        = Except.error "connection refused" ∧
      (create_qdrant_collection envNoBuild).2 = []) ∧
    (callsOf (create_qdrant_collection envDecline).2 = [] ∧
      Event.prompt ("Are you sure you want to create collection "
          ++ collection_name envDecline ++ " on cluster "
          ++ envDecline.cluster.name ++ "?")
        ∈ (create_qdrant_collection envDecline).2) :=
  ⟨(C10_clients_before_prompt envNoBuild "connection refused" "").1 rfl,
   (C10_clients_before_prompt envDecline "" "").2.2 rfl rfl⟩

end Dust
